import Mathlib

/-!
Shallow embedding of `src/04_data_analysis_python.py`
("Data Quality Profiler & Anomaly Detection").

The script builds two in-memory tables (financial transactions and
healthcare cases), profiles them for nulls, detects Z-score anomalies,
analyses SLA breaches and settlement gaps, and renders a dashboard chart.
Numeric cells (numpy float64 / int64) are modelled as `ℚ` (and as `ℝ`
where the code takes a square root); pandas' missing values are modelled
as `Option`.  Python's `round(x, d)` / numpy `.round(d)` round half to
even, modelled by `rdHalfEven` / `roundTo`.
-/

namespace DataAnalysis

/-- Round half to even (banker's rounding), as Python's builtin `round`
and numpy rounding do at exact halves. -/
def rdHalfEven (x : ℚ) : ℤ :=
  if x - (⌊x⌋ : ℚ) < 1/2 then ⌊x⌋
  else if 1/2 < x - (⌊x⌋ : ℚ) then ⌊x⌋ + 1
  else if ⌊x⌋ % 2 = 0 then ⌊x⌋ else ⌊x⌋ + 1

/-- Python `round(x, d)` / pandas `.round(d)` on exact values. -/
def roundTo (d : ℕ) (x : ℚ) : ℚ := (rdHalfEven (x * 10 ^ d) : ℚ) / 10 ^ d

/-! ### Generic dataframe model, as used by MODULE 1 (`profile_dataframe`)

`profile_dataframe` only looks at null patterns, the row count and one
categorical column, so a cell is modelled as `Option String`
(`none` = missing / NaN, `some v` = the cell's printed value). -/

/-- A dataframe: named columns of optional cells, in column order. -/
structure DataFrame where
  cols : List (String × List (Option String))
deriving DecidableEq, Repr

/-- `df[col].isnull().sum()` for one column. -/
def isnullCount (c : List (Option String)) : ℕ :=
  (c.filter (fun x => x.isNone)).length

/-- `(df[col].isnull().mean() * 100).round(2)` for one column. -/
def nullPct (c : List (Option String)) : ℚ :=
  roundTo 2 ((isnullCount c : ℚ) / (c.length : ℚ) * 100)

/-- `len(df)`: the frame's row count (length of its columns). -/
def DataFrame.nrows (df : DataFrame) : ℕ :=
  match df.cols with
  | [] => 0
  | c :: _ => c.2.length

/-- One row of the printed null report: column name, `null_count`,
`null_pct`. -/
structure NullRow where
  colName : String
  null_count : ℕ
  null_pct : ℚ
deriving DecidableEq, Repr

/-- The null report: per-column null counts and percentages, restricted
to columns with `null_count > 0` (line 98-101). -/
def nullReport (df : DataFrame) : List NullRow :=
  (df.cols.map (fun c => NullRow.mk c.1 (isnullCount c.2) (nullPct c.2))).filter
    (fun r => 0 < r.null_count)

/-- `"program_code" if "program_code" in df.columns else "case_type"`
(line 107). -/
def catColName (df : DataFrame) : String :=
  if df.cols.any (fun c => c.1 = "program_code") then "program_code" else "case_type"

/-- Column lookup; `none` models pandas raising `KeyError`. -/
def getCol (df : DataFrame) (name : String) : Option (List (Option String)) :=
  (df.cols.find? (fun c => c.1 = name)).map (fun c => c.2)

/-- `df[col].value_counts()`: counts of the distinct non-null values,
sorted by count descending. -/
def valueCounts (c : List (Option String)) : List (String × ℕ) :=
  let vals := (c.filterMap id).dedup
  List.insertionSort (fun a b => b.2 ≤ a.2)
    (vals.map (fun v => (v, (c.filterMap id).count v)))

/-- Everything `profile_dataframe` prints: record count, null report,
whether "No null values detected." is printed, and the category
value counts (`none` models the `KeyError` when neither `program_code`
nor `case_type` exists). -/
structure ProfileReport where
  records : ℕ
  nullRows : List NullRow
  noNullMsg : Bool
  catCounts : Option (List (String × ℕ))
deriving DecidableEq, Repr

/-- MODULE 1, `profile_dataframe` (lines 91-108), as the report it
prints. -/
def profile_dataframe (df : DataFrame) : ProfileReport :=
  let nr := nullReport df
  { records := df.nrows
    nullRows := nr
    noNullMsg := nr.isEmpty
    catCounts := (getCol df (catColName df)).map valueCounts }

/-! ### SECTION 2: healthcare case rows and the SLA columns -/

/-- One row of `df_hc` (lines 65-74); `customer_id` and `assigned_team`
can be missing (lines 77-78). -/
structure HcRow where
  case_id : String
  customer_id : Option String
  case_type : String
  priority : String
  assigned_team : Option String
  created_date : ℤ
  resolution_hours : ℤ
  status : String
deriving DecidableEq, Repr

/-- `sla_map = {"P1": 4, "P2": 24, "P3": 72}` (line 57), as a lookup;
`none` models a priority outside the map (pandas `.map` gives NaN). -/
def slaThreshold (p : String) : Option ℤ :=
  List.lookup p [("P1", 4), ("P2", 24), ("P3", 72)]

/-- `df_hc["sla_status"] = np.where(resolution_hours > sla_threshold,
"SLA_BREACH", "WITHIN_SLA")` (lines 81-84).  A NaN threshold compares
false, so such a row gets `"WITHIN_SLA"`. -/
def slaStatus (r : HcRow) : String :=
  match slaThreshold r.priority with
  | some t => if t < r.resolution_hours then "SLA_BREACH" else "WITHIN_SLA"
  | none => "WITHIN_SLA"

/-! ### MODULE 3: `analyze_sla_breaches` (lines 137-166) -/

/-- Mean of a list of cells as pandas computes it for these columns. -/
def meanQ (xs : List ℚ) : ℚ := xs.sum / (xs.length : ℚ)

/-- One row of the per-priority summary (lines 148-155). -/
structure PrioRow where
  total : ℕ
  breaches : ℕ
  breach_pct : ℚ
  avg_res_hours : ℚ
deriving DecidableEq, Repr

/-- One row of the per-team summary (lines 159-164): note it has no
`avg_res_hours` field. -/
structure TeamRow where
  total : ℕ
  breaches : ℕ
  breach_pct : ℚ
deriving DecidableEq, Repr

/-- `groupby` keys: the distinct values of a string column, ascending
(pandas sorts group keys by default). -/
def groupKeys (vals : List String) : List String :=
  List.insertionSort (fun a b => a ≤ b) vals.dedup

/-- The group of rows whose `priority` is `k`. -/
def prioGroup (rows : List HcRow) (k : String) : List HcRow :=
  rows.filter (fun r => r.priority = k)

/-- The group of rows whose `assigned_team` is `k` (pandas `groupby`
drops rows whose key is NaN). -/
def teamGroup (rows : List HcRow) (k : String) : List HcRow :=
  rows.filter (fun r => r.assigned_team = some k)

/-- Number of `"SLA_BREACH"` rows in a group. -/
def breachCount (g : List HcRow) : ℕ :=
  (g.filter (fun r => slaStatus r = "SLA_BREACH")).length

/-- `round(100.0 * breaches / total, 1)` for a group. -/
def breachPct (g : List HcRow) : ℚ :=
  roundTo 1 (100 * (breachCount g : ℚ) / (g.length : ℚ))

/-- `round(x["resolution_hours"].mean(), 1)` for a group. -/
def avgResHours (g : List HcRow) : ℚ :=
  roundTo 1 (meanQ (g.map (fun r => (r.resolution_hours : ℚ))))

/-- The per-priority summary (lines 148-156). -/
def prioritySummary (rows : List HcRow) : List (String × PrioRow) :=
  (groupKeys (rows.map (fun r => r.priority))).map
    (fun k => (k, { total := (prioGroup rows k).length
                    breaches := breachCount (prioGroup rows k)
                    breach_pct := breachPct (prioGroup rows k)
                    avg_res_hours := avgResHours (prioGroup rows k) }))

/-- The per-team summary before sorting (lines 159-164). -/
def teamSummaryUnsorted (rows : List HcRow) : List (String × TeamRow) :=
  (groupKeys (rows.filterMap (fun r => r.assigned_team))).map
    (fun k => (k, { total := (teamGroup rows k).length
                    breaches := breachCount (teamGroup rows k)
                    breach_pct := breachPct (teamGroup rows k) }))

/-- `.sort_values("breach_pct", ascending=False)` (line 165). -/
def teamSummary (rows : List HcRow) : List (String × TeamRow) :=
  List.insertionSort (fun a b => b.2.breach_pct ≤ a.2.breach_pct)
    (teamSummaryUnsorted rows)

/-- Everything `analyze_sla_breaches` prints (lines 137-166). -/
structure SlaReport where
  total : ℕ
  breaches : ℕ
  prioSummary : List (String × PrioRow)
  teamSummaryRows : List (String × TeamRow)
deriving DecidableEq, Repr

/-- MODULE 3, `analyze_sla_breaches`, as the report it prints. -/
def analyze_sla_breaches (rows : List HcRow) : SlaReport :=
  { total := rows.length
    breaches := breachCount rows
    prioSummary := prioritySummary rows
    teamSummaryRows := teamSummary rows }

/-! ### MODULE 4: `analyze_settlement_gaps` (lines 173-183) -/

/-- Everything `analyze_settlement_gaps` prints. -/
structure GapReport where
  total : ℕ
  gapBreaches : ℕ
  avgGapAll : ℚ
  avgGapBreaches : Option ℚ
deriving DecidableEq, Repr

/-- `df[df["days_to_settle"] > threshold_days]` (line 178). -/
def gapBreachRows (days : List ℤ) (threshold_days : ℤ) : List ℤ :=
  days.filter (fun d => threshold_days < d)

/-- MODULE 4, `analyze_settlement_gaps`, on the `days_to_settle` column;
the breach average is only printed when breaches exist (lines 182-183). -/
def analyze_settlement_gaps (days : List ℤ) (threshold_days : ℤ) : GapReport :=
  let br := gapBreachRows days threshold_days
  { total := days.length
    gapBreaches := br.length
    avgGapAll := meanQ (days.map (fun d => (d : ℚ)))
    avgGapBreaches :=
      if br.isEmpty then none else some (meanQ (br.map (fun d => (d : ℚ)))) }

/-! ### SECTION 1: financial transaction rows -/

/-- One row of `df_fin` (lines 29-48); `partner_id` can be missing
(line 40).  Dates are modelled as integer day numbers;
`days_to_settle` (line 48) is their difference. -/
structure FinRow where
  transaction_id : String
  partner_id : Option String
  program_code : String
  transaction_date : ℤ
  settlement_date : ℤ
  incentive_amount : ℚ
  status : String
deriving DecidableEq, Repr

/-- `df_fin["days_to_settle"]` (line 48). -/
def FinRow.days_to_settle (r : FinRow) : ℤ :=
  r.settlement_date - r.transaction_date

/-! ### MODULE 2: `detect_amount_anomalies` (lines 115-130)

The code takes `df[column].std()` (a square root), so this module is
modelled over `ℝ`; float64 columns become lists of reals.  Rows are
identified by their position. -/

/-- A dataframe of numeric (float64) columns, for MODULE 2. -/
structure NFrame where
  cols : List (String × List ℝ)

/-- `df[name]` on a numeric frame; `[]` models the `KeyError` case. -/
def NFrame.getColD (df : NFrame) (name : String) : List ℝ :=
  ((df.cols.find? (fun c => c.1 = name)).map (fun c => c.2)).getD []

/-- `df[name] = v`: pandas column assignment overwrites an existing
column in place, else appends a new one. -/
def NFrame.setCol (df : NFrame) (name : String) (v : List ℝ) : NFrame :=
  if df.cols.any (fun c => c.1 = name) then
    ⟨df.cols.map (fun c => if c.1 = name then (name, v) else c)⟩
  else ⟨df.cols ++ [(name, v)]⟩

/-- `df[column].mean()` (line 120). -/
noncomputable def meanR (xs : List ℝ) : ℝ := xs.sum / (xs.length : ℝ)

/-- The radicand of `df[column].std()`: pandas' sample variance with
`ddof = 1`. -/
noncomputable def sampleVarR (xs : List ℝ) : ℝ :=
  (xs.map (fun x => (x - meanR xs) ^ 2)).sum / ((xs.length : ℝ) - 1)

/-- `df[column].std()` (line 121). -/
noncomputable def stdR (xs : List ℝ) : ℝ := Real.sqrt (sampleVarR xs)

open Classical in
/-- Round half to even on a real, the same rule as `rdHalfEven`. -/
noncomputable def rdHalfEvenR (x : ℝ) : ℤ :=
  if x - (⌊x⌋ : ℝ) < 1/2 then ⌊x⌋
  else if (1 : ℝ)/2 < x - (⌊x⌋ : ℝ) then ⌊x⌋ + 1
  else if ⌊x⌋ % 2 = 0 then ⌊x⌋ else ⌊x⌋ + 1

/-- numpy `.round(2)` on a real value. -/
noncomputable def round2R (x : ℝ) : ℝ := (rdHalfEvenR (x * 100) : ℝ) / 100

/-- `df["z_score"] = ((df[column] - mean) / std).round(2)` (line 123). -/
noncomputable def zscoreCol (xs : List ℝ) : List ℝ :=
  xs.map (fun x => round2R ((x - meanR xs) / stdR xs))

/-- What `detect_amount_anomalies` prints: mean, std, the anomaly row
positions (`df[df["z_score"].abs() > threshold]`) and their count. -/
structure AnomalyReport where
  mean : ℝ
  std : ℝ
  count : ℕ
  rows : List ℕ

open Classical in
/-- MODULE 2, `detect_amount_anomalies` (lines 115-130).  The second
component is the dataframe the caller sees after the call: the function
rebinds `df` to `df.copy()` (line 122) before assigning the `z_score`
column, so the mutation lands on the copy. -/
noncomputable def detect_amount_anomalies (df : NFrame) (column : String)
    (threshold : ℝ) : AnomalyReport × NFrame :=
  let xs := df.getColD column
  let dfc : NFrame := ⟨df.cols⟩
  let dfz := dfc.setCol "z_score" (zscoreCol xs)
  let zs := dfz.getColD "z_score"
  let rows := (List.range zs.length).filter (fun i => decide (threshold < |zs.getD i 0|))
  ({ mean := meanR xs
     std := stdR xs
     count := rows.length
     rows := rows }, df)

/-- Claim-side formula for C1: the Z-score of row `i` — value minus
column mean, divided by the column standard deviation, rounded to two
decimals. -/
noncomputable def zscoreSpec (xs : List ℝ) (i : ℕ) : ℝ :=
  round2R ((xs.getD i 0 - meanR xs) / stdR xs)

open Classical in
/-- Claim-side count for C1: the number of rows whose absolute Z-score
strictly exceeds the threshold. -/
noncomputable def anomalyCountSpec (xs : List ℝ) (t : ℝ) : ℕ :=
  (List.range xs.length).countP (fun i => decide (t < |zscoreSpec xs i|))

/-! ### Percentile (claim C5)

The spec asserts percentile-based thresholding.  No percentile is
computed anywhere in the source; to settle the claim we model the
claimed rule with numpy's default linear-interpolation percentile. -/

/-- Modelled from the spec: numpy-style linear-interpolation percentile
(`np.percentile(xs, p)`), which the spec claims the thresholding
compares against; the source computes no percentile. -/
def percentile (xs : List ℚ) (p : ℚ) : ℚ :=
  let s := List.insertionSort (fun a b => a ≤ b) xs
  if s.length = 0 then 0
  else
    let h : ℚ := p / 100 * ((s.length : ℚ) - 1)
    let i : ℤ := ⌊h⌋
    let lo := s.getD i.toNat 0
    let hi := s.getD (i.toNat + 1) 0
    lo + (h - (i : ℚ)) * (hi - lo)

/-- Claim-side rule for C5: breach rows selected by comparison against a
percentile of the data. -/
def percentileBreachRows (days : List ℤ) (p : ℚ) : List ℤ :=
  days.filter (fun d => percentile (days.map (fun x => (x : ℚ))) p < (d : ℚ))

/-- Claim C5 as stated, on the settlement-gap analysis as run by main
(`threshold_days = 5`): some percentile of the data is the threshold
against which rows are classified.  The claim also asserts this of the
anomaly analysis; refuting this conjunct refutes the claim. -/
def gapsArePercentileBased : Prop :=
  ∃ p : ℚ, 0 ≤ p ∧ p ≤ 100 ∧
    ∀ days : List ℤ, gapBreachRows days 5 = percentileBreachRows days p

/-! ### MODULE 5: `generate_dashboard` (lines 190-237) -/

/-- The data behind the four panels, and the file the chart is saved to
(line 235). -/
structure Dashboard where
  histAmounts : List ℚ
  histMeanLine : ℚ
  statusCounts : List (String × ℕ)
  slaByPriority : List (String × Option ℚ)
  teamAvgHours : List (String × ℚ)
  savedFile : String
deriving DecidableEq, Repr

/-- Panel 3 (lines 212-214): breach rate by priority, reindexed to
`["P1", "P2", "P3"]` (`none` models the NaN of a missing group). -/
def slaByPriorityPanel (rows : List HcRow) : List (String × Option ℚ) :=
  ["P1", "P2", "P3"].map (fun k =>
    (k, if (prioGroup rows k).isEmpty then none
        else some (breachPct (prioGroup rows k))))

/-- Panel 4 (line 226): mean resolution hours by team, rounded to 1. -/
def teamAvgHoursPanel (rows : List HcRow) : List (String × ℚ) :=
  (groupKeys (rows.filterMap (fun r => r.assigned_team))).map
    (fun k => (k, avgResHours (teamGroup rows k)))

/-- MODULE 5, `generate_dashboard`, as the data it renders and the file
it writes. -/
def generate_dashboard (fin : List FinRow) (hc : List HcRow) : Dashboard :=
  { histAmounts := fin.map (fun r => r.incentive_amount)
    histMeanLine := meanQ (fin.map (fun r => r.incentive_amount))
    statusCounts := valueCounts (fin.map (fun r => some r.status))
    slaByPriority := slaByPriorityPanel hc
    teamAvgHours := teamAvgHoursPanel hc
    savedFile := "production_support_dashboard.png" }

/-! ### Durable writes (claim C7)

Each module's only side effects are terminal prints, except
`generate_dashboard`, whose `plt.savefig` (line 235) writes a PNG file.
The file paths each module writes are recorded per module. -/

/-- The files each of the five modules writes, from the source: the four
analysis modules only print; `generate_dashboard` saves the chart
(line 235). -/
def moduleWrites : List (String × List String) :=
  [("profile_dataframe", []),
   ("detect_amount_anomalies", []),
   ("analyze_settlement_gaps", []),
   ("analyze_sla_breaches", []),
   ("generate_dashboard", ["production_support_dashboard.png"])]

/-- Claim C7 as stated: no module writes durable state. -/
def noModuleWrites : Prop := ∀ m ∈ moduleWrites, m.2 = []

/-! ### MAIN (lines 244-259) -/

/-- `df_fin` as the generic frame MODULE 1 profiles: the seven generated
columns (lines 29-37) plus `days_to_settle` (line 48). -/
def finFrame (rows : List FinRow) : DataFrame :=
  ⟨[("transaction_id", rows.map (fun r => some r.transaction_id)),
    ("partner_id", rows.map (fun r => r.partner_id)),
    ("program_code", rows.map (fun r => some r.program_code)),
    ("transaction_date", rows.map (fun r => some (toString r.transaction_date))),
    ("settlement_date", rows.map (fun r => some (toString r.settlement_date))),
    ("incentive_amount", rows.map (fun r => some (toString r.incentive_amount))),
    ("status", rows.map (fun r => some r.status)),
    ("days_to_settle", rows.map (fun r => some (toString r.days_to_settle)))]⟩

/-- `df_hc` as the generic frame MODULE 1 profiles: the eight generated
columns (lines 65-74) plus `sla_threshold` and `sla_status`
(lines 81-84). -/
def hcFrame (rows : List HcRow) : DataFrame :=
  ⟨[("case_id", rows.map (fun r => some r.case_id)),
    ("customer_id", rows.map (fun r => r.customer_id)),
    ("case_type", rows.map (fun r => some r.case_type)),
    ("priority", rows.map (fun r => some r.priority)),
    ("assigned_team", rows.map (fun r => r.assigned_team)),
    ("created_date", rows.map (fun r => some (toString r.created_date))),
    ("resolution_hours", rows.map (fun r => some (toString r.resolution_hours))),
    ("status", rows.map (fun r => some r.status)),
    ("sla_threshold", rows.map (fun r => (slaThreshold r.priority).map toString)),
    ("sla_status", rows.map (fun r => some (slaStatus r)))]⟩

/-- The numeric columns of `df_fin`, as MODULE 2 receives them. -/
def finNFrame (rows : List FinRow) : NFrame :=
  ⟨[("incentive_amount", rows.map (fun r => (r.incentive_amount : ℝ))),
    ("days_to_settle", rows.map (fun r => (r.days_to_settle : ℝ)))]⟩

/-- The outputs of the five module calls made by `__main__`, in call
order (lines 244-259). -/
structure MainTrace where
  finProfile : ProfileReport
  finAnomalies : AnomalyReport × NFrame
  finGaps : GapReport
  hcProfile : ProfileReport
  hcSla : SlaReport
  dashboard : Dashboard

/-- `__main__` (lines 244-259): a straight-line sequence of the five
module calls, with the thresholds used there (`threshold=3.0`,
`threshold_days=5`). -/
noncomputable def mainRun (fin : List FinRow) (hc : List HcRow) : MainTrace :=
  { finProfile := profile_dataframe (finFrame fin)
    finAnomalies := detect_amount_anomalies (finNFrame fin) "incentive_amount" 3
    finGaps := analyze_settlement_gaps (fin.map (fun r => r.days_to_settle)) 5
    hcProfile := profile_dataframe (hcFrame hc)
    hcSla := analyze_sla_breaches hc
    dashboard := generate_dashboard fin hc }

/-! ### Claim-side predicates and concrete inputs -/

/-- Whether a frame's `transaction_id` column holds a repeated value
(as injected at line 43). -/
def hasDupIds (df : DataFrame) : Bool :=
  match getCol df "transaction_id" with
  | some c => decide (¬ c.Nodup)
  | none => false

/-- Claim C3 as stated: the profiling detects and reports duplicate
records, i.e. some reader of the printed profile can tell whether the
frame's `transaction_id` column holds a duplicate. -/
def profileDetectsDuplicates : Prop :=
  ∃ g : ProfileReport → Bool, ∀ df : DataFrame, g (profile_dataframe df) = hasDupIds df

/-- Everything `profile_dataframe` actually reads from a frame: the row
count, each column's name and null mask, and the category column. -/
def profileInputs (df : DataFrame) :
    ℕ × List (String × List Bool) × Option (List (Option String)) :=
  (df.nrows,
   df.cols.map (fun c => (c.1, c.2.map (fun x => x.isNone))),
   getCol df (catColName df))

/-- A two-row financial-style frame whose `transaction_id` column holds
a duplicated id, as line 43 injects. -/
def dfDup : DataFrame :=
  ⟨[("transaction_id", [some "TXN00049", some "TXN00049"]),
    ("program_code", [some "PROG_A", some "PROG_A"])]⟩

/-- The same frame with distinct transaction ids. -/
def dfNoDup : DataFrame :=
  ⟨[("transaction_id", [some "TXN00049", some "TXN00050"]),
    ("program_code", [some "PROG_A", some "PROG_A"])]⟩

/-- A healthcare case breaching its P3 SLA in 100 hours. -/
def hcCaseA : HcRow :=
  ⟨"CASE00001", some "CUST0001", "Billing", "P3", some "Team_Alpha", 0, 100, "Resolved"⟩

/-- The same case resolved in 200 hours instead. -/
def hcCaseB : HcRow :=
  ⟨"CASE00002", some "CUST0002", "Billing", "P3", some "Team_Alpha", 0, 200, "Resolved"⟩

/-- Claim C6 as stated: per priority group and per team group,
`analyze_sla_breaches` reports the group's row count, its `SLA_BREACH`
count, `100 * breaches / total` rounded to 1 decimal, and the group's
mean `resolution_hours` rounded to 1 decimal (for the team summary,
reporting the latter means some reader `g` of a printed team row can
recover it); and the team summary is ordered by `breach_pct`
descending. -/
def claimC6 : Prop :=
  (∀ (rows : List HcRow) (k : String) (pr : PrioRow),
      (k, pr) ∈ (analyze_sla_breaches rows).prioSummary →
        pr.total = (rows.filter (fun r => r.priority = k)).length ∧
        pr.breaches = ((rows.filter (fun r => r.priority = k)).filter
          (fun r => slaStatus r = "SLA_BREACH")).length ∧
        pr.breach_pct = roundTo 1 (100 * (pr.breaches : ℚ) / (pr.total : ℚ)) ∧
        pr.avg_res_hours = roundTo 1 (meanQ ((rows.filter
          (fun r => r.priority = k)).map (fun r => (r.resolution_hours : ℚ))))) ∧
  (∀ (rows : List HcRow) (k : String) (tr : TeamRow),
      (k, tr) ∈ (analyze_sla_breaches rows).teamSummaryRows →
        tr.total = (rows.filter (fun r => r.assigned_team = some k)).length ∧
        tr.breaches = ((rows.filter (fun r => r.assigned_team = some k)).filter
          (fun r => slaStatus r = "SLA_BREACH")).length ∧
        tr.breach_pct = roundTo 1 (100 * (tr.breaches : ℚ) / (tr.total : ℚ))) ∧
  (∃ g : TeamRow → ℚ, ∀ (rows : List HcRow) (k : String) (tr : TeamRow),
      (k, tr) ∈ (analyze_sla_breaches rows).teamSummaryRows →
        g tr = roundTo 1 (meanQ ((rows.filter
          (fun r => r.assigned_team = some k)).map (fun r => (r.resolution_hours : ℚ))))) ∧
  (∀ rows : List HcRow,
      (analyze_sla_breaches rows).teamSummaryRows.Pairwise
        (fun a b => b.2.breach_pct ≤ a.2.breach_pct))

/-! ### Helper lemmas -/

lemma rdHalfEven_cases (y : ℚ) : rdHalfEven y = ⌊y⌋ ∨ rdHalfEven y = ⌊y⌋ + 1 := by
  unfold rdHalfEven
  split
  · exact Or.inl rfl
  · split
    · exact Or.inr rfl
    · split
      · exact Or.inl rfl
      · exact Or.inr rfl

lemma rdHalfEven_eq_floor_of_lt (y : ℚ) (h : y - (⌊y⌋ : ℚ) < 1/2) :
    rdHalfEven y = ⌊y⌋ := by
  unfold rdHalfEven
  rw [if_pos h]

lemma rdHalfEven_nonneg (y : ℚ) (hy : 0 ≤ y) : 0 ≤ rdHalfEven y := by
  rcases rdHalfEven_cases y with h | h <;> rw [h]
  · exact Int.floor_nonneg.mpr hy
  · have := Int.floor_nonneg.mpr hy
    omega

lemma rdHalfEven_le (y : ℚ) (B : ℤ) (hy : y ≤ B) : rdHalfEven y ≤ B := by
  have hfl : ⌊y⌋ ≤ B := by
    have := Int.floor_le_floor hy
    rwa [Int.floor_intCast] at this
  rcases rdHalfEven_cases y with h | h
  · rw [h]
    exact hfl
  · rcases eq_or_lt_of_le hfl with he | hlt
    · have hB : (⌊y⌋ : ℚ) = (B : ℚ) := by exact_mod_cast he
      have hr : y - (⌊y⌋ : ℚ) < 1/2 := by
        rw [hB]
        linarith
      rw [rdHalfEven_eq_floor_of_lt y hr] at h
      omega
    · rw [h]
      omega

lemma roundTo_nonneg (d : ℕ) (x : ℚ) (hx : 0 ≤ x) : 0 ≤ roundTo d x := by
  unfold roundTo
  have h10 : (0 : ℚ) < 10 ^ d := by positivity
  have hr : 0 ≤ rdHalfEven (x * 10 ^ d) :=
    rdHalfEven_nonneg _ (by positivity)
  positivity

lemma roundTo_le_hundred (d : ℕ) (x : ℚ) (hx : x ≤ 100) : roundTo d x ≤ 100 := by
  unfold roundTo
  have h10 : (0 : ℚ) < 10 ^ d := by positivity
  have hb : x * 10 ^ d ≤ ((100 * 10 ^ d : ℤ) : ℚ) := by
    push_cast
    nlinarith
  have hr : rdHalfEven (x * 10 ^ d) ≤ 100 * 10 ^ d := rdHalfEven_le _ _ hb
  rw [div_le_iff₀ h10]
  calc ((rdHalfEven (x * 10 ^ d) : ℚ)) ≤ ((100 * 10 ^ d : ℤ) : ℚ) := by exact_mod_cast hr
    _ = 100 * 10 ^ d := by push_cast; ring

lemma slaStatus_dichotomy (r : HcRow) :
    slaStatus r = "SLA_BREACH" ∨ slaStatus r = "WITHIN_SLA" := by
  unfold slaStatus
  rcases slaThreshold r.priority with - | t
  · exact Or.inr rfl
  · dsimp only
    split
    · exact Or.inl rfl
    · exact Or.inr rfl

lemma slaStatus_within_eq_not_breach (r : HcRow) :
    decide (slaStatus r = "WITHIN_SLA") = !decide (slaStatus r = "SLA_BREACH") := by
  rcases slaStatus_dichotomy r with h | h <;> rw [h] <;> decide

lemma find?_map_setCol (n : String) (v : List ℝ) :
    ∀ l : List (String × List ℝ), l.any (fun c => c.1 = n) = true →
      (l.map (fun c => if c.1 = n then (n, v) else c)).find? (fun c => c.1 = n) =
        some (n, v) := by
  intro l
  induction l with
  | nil => simp
  | cons head tail ih =>
    intro h
    by_cases hh : head.1 = n
    · rw [List.map_cons, if_pos hh, List.find?_cons_of_pos _ (by simp)]
    · rw [List.map_cons, if_neg hh, List.find?_cons_of_neg _ (by simp [hh])]
      apply ih
      rw [List.any_cons] at h
      simpa [hh] using h

lemma getColD_setCol (df : NFrame) (n : String) (v : List ℝ) :
    (df.setCol n v).getColD n = v := by
  unfold NFrame.setCol NFrame.getColD
  by_cases h : df.cols.any (fun c => c.1 = n) = true
  · rw [if_pos h]
    dsimp only
    rw [find?_map_setCol n v df.cols h]
    rfl
  · rw [if_neg h]
    dsimp only
    rw [List.find?_append]
    have hnone : df.cols.find? (fun c => decide (c.1 = n)) = none := by
      rw [List.find?_eq_none]
      intro x hx hpx
      exact h (List.any_eq_true.mpr ⟨x, hx, hpx⟩)
    rw [hnone]
    simp [List.find?]

lemma zscoreCol_length (xs : List ℝ) : (zscoreCol xs).length = xs.length := by
  simp [zscoreCol]

lemma zscoreCol_getD (xs : List ℝ) (i : ℕ) (hi : i < xs.length) :
    (zscoreCol xs).getD i 0 = zscoreSpec xs i := by
  unfold zscoreCol zscoreSpec
  simp [List.getD_eq_getElem?_getD, List.getElem?_map, List.getElem?_eq_getElem hi]

/-! ### Claim theorems -/

/-- Claim C1: for every dataframe and numeric column,
`detect_amount_anomalies` flags exactly the rows whose absolute Z-score —
value minus column mean, over the column standard deviation, rounded to
2 decimals — strictly exceeds the threshold, and the reported anomaly
count is the number of such rows. -/
theorem C1_detect_anomalies (df : NFrame) (column : String) (t : ℝ) :
    (∀ i : ℕ, i ∈ ((detect_amount_anomalies df column t).1).rows ↔
        i < (df.getColD column).length ∧ t < |zscoreSpec (df.getColD column) i|) ∧
    ((detect_amount_anomalies df column t).1).count =
      anomalyCountSpec (df.getColD column) t := by
  have hz : ((⟨df.cols⟩ : NFrame).setCol "z_score"
        (zscoreCol (df.getColD column))).getColD "z_score" =
      zscoreCol (df.getColD column) := getColD_setCol _ _ _
  constructor
  · intro i
    simp only [detect_amount_anomalies]
    rw [hz, List.mem_filter, List.mem_range, zscoreCol_length]
    constructor
    · rintro ⟨hi, hp⟩
      rw [decide_eq_true_eq, zscoreCol_getD _ _ hi] at hp
      exact ⟨hi, hp⟩
    · rintro ⟨hi, hp⟩
      refine ⟨hi, ?_⟩
      rw [decide_eq_true_eq, zscoreCol_getD _ _ hi]
      exact hp
  · simp only [detect_amount_anomalies]
    rw [hz, zscoreCol_length]
    unfold anomalyCountSpec
    rw [List.countP_eq_length_filter]
    congr 1
    apply List.filter_congr
    intro i hi
    rw [List.mem_range] at hi
    apply decide_eq_decide.mpr
    rw [zscoreCol_getD _ _ hi]

/-- Claim C4: the null report lists exactly the columns with a positive
null count, with `null_count` the column's number of nulls and
`null_pct` 100 times the null fraction rounded to 2 decimals; the
"No null values detected." message is printed iff no column has a
null. -/
theorem C4_null_report (df : DataFrame) :
    (profile_dataframe df).nullRows =
      (df.cols.filter (fun c => 0 < isnullCount c.2)).map
        (fun c => NullRow.mk c.1 (isnullCount c.2)
          (roundTo 2 (100 * ((isnullCount c.2 : ℚ) / (c.2.length : ℚ))))) ∧
    ((profile_dataframe df).noNullMsg = true ↔ ∀ c ∈ df.cols, isnullCount c.2 = 0) := by
  constructor
  · show nullReport df = _
    rw [nullReport, List.filter_map]
    apply List.map_congr_left
    intro c _
    have : nullPct c.2 = roundTo 2 (100 * ((isnullCount c.2 : ℚ) / (c.2.length : ℚ))) := by
      unfold nullPct
      exact congrArg (roundTo 2) (by ring)
    rw [NullRow.mk.injEq]
    exact ⟨rfl, rfl, this⟩
  · show (nullReport df).isEmpty = true ↔ _
    rw [List.isEmpty_iff, nullReport, List.filter_eq_nil_iff]
    constructor
    · intro h c hc
      have := h _ (List.mem_map_of_mem _ hc)
      simpa using this
    · intro h r hr
      rw [List.mem_map] at hr
      obtain ⟨c, hc, rfl⟩ := hr
      simp [h c hc]

/-- Claim C2: a healthcare case's `sla_status` is `"SLA_BREACH"` iff its
`resolution_hours` strictly exceeds its `sla_threshold`, the threshold
determined by priority via P1 -> 4, P2 -> 24, P3 -> 72; otherwise it is
`"WITHIN_SLA"`. -/
theorem C2_sla_status (r : HcRow) (t : ℤ) (h : slaThreshold r.priority = some t) :
    ((slaStatus r = "SLA_BREACH") ↔ t < r.resolution_hours) ∧
    ((slaStatus r = "WITHIN_SLA") ↔ r.resolution_hours ≤ t) ∧
    (r.priority = "P1" → t = 4) ∧
    (r.priority = "P2" → t = 24) ∧
    (r.priority = "P3" → t = 72) := by
  have hs : slaStatus r =
      if t < r.resolution_hours then "SLA_BREACH" else "WITHIN_SLA" := by
    unfold slaStatus
    rw [h]
  refine ⟨?_, ?_, ?_, ?_, ?_⟩
  · rw [hs]
    split_ifs with hc
    · exact ⟨fun _ => hc, fun _ => rfl⟩
    · constructor
      · intro habs
        exact absurd habs (by decide)
      · intro hlt
        exact absurd hlt hc
  · rw [hs]
    split_ifs with hc
    · constructor
      · intro habs
        exact absurd habs (by decide)
      · intro hle
        omega
    · exact ⟨fun _ => by omega, fun _ => rfl⟩
  · intro hp
    rw [hp] at h
    have h4 : slaThreshold "P1" = some 4 := rfl
    rw [h4] at h
    injection h with h4t
    omega
  · intro hp
    rw [hp] at h
    have h24 : slaThreshold "P2" = some 24 := rfl
    rw [h24] at h
    injection h with h24t
    omega
  · intro hp
    rw [hp] at h
    have h72 : slaThreshold "P3" = some 72 := rfl
    rw [h72] at h
    injection h with h72t
    omega

/-- Witness for C2 at a concrete P1 case resolved in 5 hours. -/
theorem C2_sla_status_witness :
    ((slaStatus ⟨"CASE00001", some "CUST0001", "Billing", "P1", some "Team_Alpha", 0, 5, "Resolved"⟩ = "SLA_BREACH") ↔
      (4 : ℤ) < 5) ∧
    ((slaStatus ⟨"CASE00001", some "CUST0001", "Billing", "P1", some "Team_Alpha", 0, 5, "Resolved"⟩ = "WITHIN_SLA") ↔
      (5 : ℤ) ≤ 4) ∧
    ("P1" = "P1" → (4 : ℤ) = 4) ∧
    ("P1" = "P2" → (4 : ℤ) = 24) ∧
    ("P1" = "P3" → (4 : ℤ) = 72) :=
  C2_sla_status ⟨"CASE00001", some "CUST0001", "Billing", "P1", some "Team_Alpha", 0, 5, "Resolved"⟩ 4 rfl

/-- Claim C7 fails as stated: `generate_dashboard` does write durable
state, the chart file saved by `plt.savefig` (line 235). -/
theorem C7_counterexample : ¬ noModuleWrites := by
  intro h
  have hmem : ("generate_dashboard", ["production_support_dashboard.png"]) ∈ moduleWrites := by
    simp [moduleWrites]
  have := h _ hmem
  simp at this

/-- Claim C7 amended: the four analysis modules write no files; the only
durable write of the program is `generate_dashboard` saving the chart to
`production_support_dashboard.png`. -/
theorem C7_amended :
    moduleWrites.filter (fun m => !m.2.isEmpty) =
      [("generate_dashboard", ["production_support_dashboard.png"])] ∧
    ∀ (fin : List FinRow) (hc : List HcRow),
      (generate_dashboard fin hc).savedFile = "production_support_dashboard.png" :=
  ⟨rfl, fun _ _ => rfl⟩

/-- Claim C8: each module is a total function of its input table — in
this embedding every module is a total Lean function, so it terminates
on every finite input — and `__main__` is the straight-line sequence of
the five module calls, run once. -/
theorem C8_main (fin : List FinRow) (hc : List HcRow) :
    mainRun fin hc =
      { finProfile := profile_dataframe (finFrame fin)
        finAnomalies := detect_amount_anomalies (finNFrame fin) "incentive_amount" 3
        finGaps := analyze_settlement_gaps (fin.map FinRow.days_to_settle) 5
        hcProfile := profile_dataframe (hcFrame hc)
        hcSla := analyze_sla_breaches hc
        dashboard := generate_dashboard fin hc } :=
  rfl

/-- Claim C9: `detect_amount_anomalies` never mutates its input
dataframe: the frame the caller sees after the call is the frame passed
in, because the `z_score` column is assigned on the internal
`df.copy()`. -/
theorem C9_no_mutation (df : NFrame) (column : String) (threshold : ℝ) :
    (detect_amount_anomalies df column threshold).2 = df :=
  rfl

lemma nullReport_eq_ofMasks (df : DataFrame) :
    nullReport df =
      ((df.cols.map (fun c => (c.1, c.2.map (fun x => x.isNone)))).map
        (fun m => NullRow.mk m.1 (m.2.countP (fun b => b))
          (roundTo 2 ((m.2.countP (fun b => b) : ℚ) / (m.2.length : ℚ) * 100)))).filter
        (fun r => 0 < r.null_count) := by
  rw [nullReport, List.map_map]
  congr 1
  apply List.map_congr_left
  intro c _
  have hcount : ((c.2.map (fun x => x.isNone)).countP (fun b => b)) = isnullCount c.2 := by
    rw [List.countP_map, isnullCount, ← List.countP_eq_length_filter]
    rfl
  have hlen : (c.2.map (fun x => x.isNone)).length = c.2.length := List.length_map _ _
  show NullRow.mk c.1 (isnullCount c.2) (nullPct c.2) = _
  rw [Function.comp_apply, NullRow.mk.injEq]
  refine ⟨rfl, hcount.symm, ?_⟩
  rw [nullPct, hcount, hlen]

lemma any_map_general {α β : Type} (l : List α) (f : α → β) (p : β → Bool) :
    (l.map f).any p = l.any (fun c => p (f c)) := by
  induction l with
  | nil => rfl
  | cons a t ih => simp [List.any_cons, ih]

lemma catColName_eq_of_masks {df df' : DataFrame}
    (h : df.cols.map (fun c => (c.1, c.2.map (fun x => x.isNone))) =
         df'.cols.map (fun c => (c.1, c.2.map (fun x => x.isNone)))) :
    catColName df = catColName df' := by
  have hnames : df.cols.map (fun c => c.1) = df'.cols.map (fun c => c.1) := by
    have h2 := congrArg (List.map (fun m => m.1)) h
    rw [List.map_map, List.map_map] at h2
    exact h2
  have key : ∀ dfx : DataFrame,
      dfx.cols.any (fun c => c.1 = "program_code") =
        (dfx.cols.map (fun c => c.1)).any (fun n => n = "program_code") := by
    intro dfx
    rw [any_map_general]
  unfold catColName
  rw [key df, key df', hnames]

/-- Claim C3 fails as stated: `profile_dataframe` reports only nulls and
category counts, so no reader of its output can tell a frame with a
duplicated `transaction_id` from one without. -/
theorem C3_counterexample : ¬ profileDetectsDuplicates := by
  rintro ⟨g, hg⟩
  have e : profile_dataframe dfDup = profile_dataframe dfNoDup := by decide
  have h1 := hg dfDup
  have h2 := hg dfNoDup
  rw [e, h2] at h1
  have hd : hasDupIds dfDup = true := by decide
  have hn : hasDupIds dfNoDup = false := by decide
  rw [hd, hn] at h1
  exact Bool.false_ne_true h1

/-- Claim C3 amended: the profiling reports the row count, the null
report and the category counts only; it does not detect or report
duplicate records — its output depends only on those inputs, so the
duplicated `transaction_id` injected into the financial dataset goes
unreported. -/
theorem C3_amended (df df' : DataFrame) (h : profileInputs df = profileInputs df') :
    profile_dataframe df = profile_dataframe df' := by
  rw [profileInputs, profileInputs, Prod.mk.injEq, Prod.mk.injEq] at h
  obtain ⟨h1, h2, h3⟩ := h
  have hnr : nullReport df = nullReport df' := by
    rw [nullReport_eq_ofMasks, nullReport_eq_ofMasks, h2]
  show ProfileReport.mk df.nrows (nullReport df) (nullReport df).isEmpty
      ((getCol df (catColName df)).map valueCounts) =
    ProfileReport.mk df'.nrows (nullReport df') (nullReport df').isEmpty
      ((getCol df' (catColName df')).map valueCounts)
  rw [ProfileReport.mk.injEq]
  exact ⟨h1, hnr, by rw [hnr], by rw [h3]⟩

/-- Witness for C3 amended: the duplicated and the duplicate-free frame
profile identically. -/
theorem C3_amended_witness : profile_dataframe dfDup = profile_dataframe dfNoDup :=
  C3_amended dfDup dfNoDup (by decide)

/-- Claim C5 fails as stated: on the column `[10]`, the settlement-gap
analysis (fixed threshold 5) flags the row, while every percentile of
the data equals 10, so a percentile-based rule flags nothing. -/
theorem C5_counterexample : ¬ gapsArePercentileBased := by
  rintro ⟨p, -, -, h⟩
  have h10 := h [10]
  have hgap : gapBreachRows [10] 5 = [10] := rfl
  have hperc : percentileBreachRows [10] p = [] := by
    have hp10 : percentile (([10] : List ℤ).map (fun x => (x : ℚ))) p = 10 := by
      simp [percentile, List.insertionSort, List.orderedInsert]
    rw [percentileBreachRows, hp10]
    simp
  rw [hgap, hperc] at h10
  exact List.cons_ne_nil _ _ h10

/-- Claim C5 amended: the thresholding is fixed-value, not
percentile-based — `analyze_settlement_gaps` classifies a row as a gap
breach iff its `days_to_settle` strictly exceeds the fixed
`threshold_days` parameter, and the breach count is the count of such
rows; no percentile of the data is involved. -/
theorem C5_amended :
    (∀ (days : List ℤ) (t d : ℤ), d ∈ gapBreachRows days t ↔ d ∈ days ∧ t < d) ∧
    (∀ (days : List ℤ) (t : ℤ),
      (analyze_settlement_gaps days t).gapBreaches =
        days.countP (fun d => decide (t < d))) := by
  constructor
  · intro days t d
    simp [gapBreachRows, List.mem_filter]
  · intro days t
    show (gapBreachRows days t).length = _
    rw [gapBreachRows, ← List.countP_eq_length_filter]

lemma groupKeys_mem {vals : List String} {k : String} (h : k ∈ groupKeys vals) :
    k ∈ vals := by
  rw [groupKeys] at h
  have hp := (List.perm_insertionSort (fun a b => a ≤ b) vals.dedup).mem_iff.mp h
  exact List.mem_dedup.mp hp

lemma mem_prioSummary {rows : List HcRow} {k : String} {pr : PrioRow}
    (h : (k, pr) ∈ prioritySummary rows) :
    pr = ⟨(prioGroup rows k).length, breachCount (prioGroup rows k),
          breachPct (prioGroup rows k), avgResHours (prioGroup rows k)⟩ ∧
    prioGroup rows k ≠ [] := by
  rw [prioritySummary, List.mem_map] at h
  obtain ⟨a, ha, hpair⟩ := h
  rw [Prod.mk.injEq] at hpair
  obtain ⟨hak, hrow⟩ := hpair
  subst hak
  refine ⟨hrow.symm, ?_⟩
  have hv := groupKeys_mem ha
  rw [List.mem_map] at hv
  obtain ⟨r, hr, hra⟩ := hv
  intro hemp
  have hmem : r ∈ prioGroup rows a := by
    rw [prioGroup, List.mem_filter]
    exact ⟨hr, by simp [hra]⟩
  rw [hemp] at hmem
  exact absurd hmem (List.not_mem_nil r)

lemma mem_teamSummary {rows : List HcRow} {k : String} {tr : TeamRow}
    (h : (k, tr) ∈ teamSummary rows) :
    tr = ⟨(teamGroup rows k).length, breachCount (teamGroup rows k),
          breachPct (teamGroup rows k)⟩ ∧
    teamGroup rows k ≠ [] := by
  rw [teamSummary] at h
  have h2 := (List.perm_insertionSort _ _).mem_iff.mp h
  rw [teamSummaryUnsorted, List.mem_map] at h2
  obtain ⟨a, ha, hpair⟩ := h2
  rw [Prod.mk.injEq] at hpair
  obtain ⟨hak, hrow⟩ := hpair
  subst hak
  refine ⟨hrow.symm, ?_⟩
  have hv := groupKeys_mem ha
  rw [List.mem_filterMap] at hv
  obtain ⟨r, hr, hra⟩ := hv
  intro hemp
  have hmem : r ∈ teamGroup rows a := by
    rw [teamGroup, List.mem_filter]
    exact ⟨hr, by simp [hra]⟩
  rw [hemp] at hmem
  exact absurd hmem (List.not_mem_nil r)

lemma teamSummary_sorted (rows : List HcRow) :
    (teamSummary rows).Pairwise (fun a b => b.2.breach_pct ≤ a.2.breach_pct) := by
  rw [teamSummary]
  haveI : IsTotal (String × TeamRow) (fun a b => b.2.breach_pct ≤ a.2.breach_pct) :=
    ⟨fun a b => le_total b.2.breach_pct a.2.breach_pct⟩
  haveI : IsTrans (String × TeamRow) (fun a b => b.2.breach_pct ≤ a.2.breach_pct) :=
    ⟨fun _ _ _ hab hbc => le_trans hbc hab⟩
  exact List.sorted_insertionSort _ _

lemma breachPct_bounds {g : List HcRow} (hne : g ≠ []) :
    0 ≤ breachPct g ∧ breachPct g ≤ 100 := by
  have hlen : 0 < (g.length : ℚ) := by
    have := List.length_pos.mpr hne
    exact_mod_cast this
  have hb : (breachCount g : ℚ) ≤ (g.length : ℚ) := by
    have : breachCount g ≤ g.length := List.length_filter_le _ _
    exact_mod_cast this
  have hx0 : 0 ≤ 100 * (breachCount g : ℚ) / (g.length : ℚ) := by positivity
  have hx100 : 100 * (breachCount g : ℚ) / (g.length : ℚ) ≤ 100 := by
    rw [div_le_iff₀ hlen]
    nlinarith
  exact ⟨roundTo_nonneg _ _ hx0, roundTo_le_hundred _ _ hx100⟩

lemma prioSummary_caseA :
    prioritySummary [hcCaseA] =
      [("P3", ⟨1, 1, breachPct [hcCaseA], avgResHours [hcCaseA]⟩)] := rfl

lemma teamSummary_caseA :
    teamSummary [hcCaseA] = [("Team_Alpha", ⟨1, 1, breachPct [hcCaseA]⟩)] := rfl

lemma teamSummary_caseB :
    teamSummary [hcCaseB] = [("Team_Alpha", ⟨1, 1, breachPct [hcCaseB]⟩)] := rfl

lemma breachPct_caseA : breachPct [hcCaseA] = 100 := by
  have h : breachCount [hcCaseA] = 1 := rfl
  rw [breachPct, h]
  norm_num [roundTo, rdHalfEven]

lemma breachPct_caseB : breachPct [hcCaseB] = 100 := by
  have h : breachCount [hcCaseB] = 1 := rfl
  rw [breachPct, h]
  norm_num [roundTo, rdHalfEven]

lemma avgResHours_caseA : avgResHours [hcCaseA] = 100 := by
  rw [avgResHours]
  norm_num [meanQ, roundTo, rdHalfEven, hcCaseA]

lemma memP_caseA :
    ("P3", (⟨1, 1, 100, 100⟩ : PrioRow)) ∈ (analyze_sla_breaches [hcCaseA]).prioSummary := by
  have h : (analyze_sla_breaches [hcCaseA]).prioSummary =
      [("P3", (⟨1, 1, 100, 100⟩ : PrioRow))] := by
    show prioritySummary [hcCaseA] = _
    rw [prioSummary_caseA, breachPct_caseA, avgResHours_caseA]
  rw [h]
  exact List.mem_singleton.mpr rfl

lemma memT_caseA :
    ("Team_Alpha", (⟨1, 1, 100⟩ : TeamRow)) ∈ (analyze_sla_breaches [hcCaseA]).teamSummaryRows := by
  have h : (analyze_sla_breaches [hcCaseA]).teamSummaryRows =
      [("Team_Alpha", (⟨1, 1, 100⟩ : TeamRow))] := by
    show teamSummary [hcCaseA] = _
    rw [teamSummary_caseA, breachPct_caseA]
  rw [h]
  exact List.mem_singleton.mpr rfl

lemma memT_caseB :
    ("Team_Alpha", (⟨1, 1, 100⟩ : TeamRow)) ∈ (analyze_sla_breaches [hcCaseB]).teamSummaryRows := by
  have h : (analyze_sla_breaches [hcCaseB]).teamSummaryRows =
      [("Team_Alpha", (⟨1, 1, 100⟩ : TeamRow))] := by
    show teamSummary [hcCaseB] = _
    rw [teamSummary_caseB, breachPct_caseB]
  rw [h]
  exact List.mem_singleton.mpr rfl

/-- Claim C6 fails as stated: the per-team summary does not report the
group's average resolution hours.  Two one-case datasets (100 h and
200 h, both breaching their P3 SLA) print identical team rows, so no
reader of a team row can recover the group's mean resolution time. -/
theorem C6_counterexample : ¬ claimC6 := by
  rintro ⟨-, -, ⟨g, hg⟩, -⟩
  have h1 := hg [hcCaseA] "Team_Alpha" ⟨1, 1, 100⟩ memT_caseA
  have h2 := hg [hcCaseB] "Team_Alpha" ⟨1, 1, 100⟩ memT_caseB
  have hA : roundTo 1 (meanQ (([hcCaseA].filter
      (fun r => r.assigned_team = some "Team_Alpha")).map
      (fun r => (r.resolution_hours : ℚ)))) = 100 := by
    norm_num [meanQ, roundTo, rdHalfEven, hcCaseA, List.filter]
  have hB : roundTo 1 (meanQ (([hcCaseB].filter
      (fun r => r.assigned_team = some "Team_Alpha")).map
      (fun r => (r.resolution_hours : ℚ)))) = 200 := by
    norm_num [meanQ, roundTo, rdHalfEven, hcCaseB, List.filter]
  rw [hA] at h1
  rw [hB] at h2
  have : (100 : ℚ) = 200 := h1.symm.trans h2
  norm_num at this

/-- Claim C6 amended: each per-priority group reports its row count,
breach count, breach percentage (rounded to 1 decimal) and average
resolution hours (rounded to 1 decimal); each per-team group reports row
count, breach count and breach percentage only; and the team summary is
ordered by `breach_pct` descending. -/
theorem C6_amended (rows : List HcRow) (kp kt : String) (pr : PrioRow) (tr : TeamRow) :
    ((kp, pr) ∈ (analyze_sla_breaches rows).prioSummary →
      pr.total = (rows.filter (fun r => r.priority = kp)).length ∧
      pr.breaches = ((rows.filter (fun r => r.priority = kp)).filter
        (fun r => slaStatus r = "SLA_BREACH")).length ∧
      pr.breach_pct = roundTo 1 (100 * (pr.breaches : ℚ) / (pr.total : ℚ)) ∧
      pr.avg_res_hours = roundTo 1 (meanQ ((rows.filter (fun r => r.priority = kp)).map
        (fun r => (r.resolution_hours : ℚ))))) ∧
    ((kt, tr) ∈ (analyze_sla_breaches rows).teamSummaryRows →
      tr.total = (rows.filter (fun r => r.assigned_team = some kt)).length ∧
      tr.breaches = ((rows.filter (fun r => r.assigned_team = some kt)).filter
        (fun r => slaStatus r = "SLA_BREACH")).length ∧
      tr.breach_pct = roundTo 1 (100 * (tr.breaches : ℚ) / (tr.total : ℚ))) ∧
    (analyze_sla_breaches rows).teamSummaryRows.Pairwise
      (fun a b => b.2.breach_pct ≤ a.2.breach_pct) := by
  refine ⟨?_, ?_, teamSummary_sorted rows⟩
  · intro h
    obtain ⟨hpr, -⟩ := mem_prioSummary h
    subst hpr
    exact ⟨rfl, rfl, rfl, rfl⟩
  · intro h
    obtain ⟨htr, -⟩ := mem_teamSummary h
    subst htr
    exact ⟨rfl, rfl, rfl⟩

/-- Witness for C6 amended at the one-case dataset `[hcCaseA]`. -/
theorem C6_amended_witness :
    ((⟨1, 1, 100, 100⟩ : PrioRow).total =
        ([hcCaseA].filter (fun r => r.priority = "P3")).length ∧
      (⟨1, 1, 100, 100⟩ : PrioRow).breaches =
        (([hcCaseA].filter (fun r => r.priority = "P3")).filter
          (fun r => slaStatus r = "SLA_BREACH")).length ∧
      (⟨1, 1, 100, 100⟩ : PrioRow).breach_pct =
        roundTo 1 (100 * ((⟨1, 1, 100, 100⟩ : PrioRow).breaches : ℚ) /
          ((⟨1, 1, 100, 100⟩ : PrioRow).total : ℚ)) ∧
      (⟨1, 1, 100, 100⟩ : PrioRow).avg_res_hours =
        roundTo 1 (meanQ (([hcCaseA].filter (fun r => r.priority = "P3")).map
          (fun r => (r.resolution_hours : ℚ))))) ∧
    ((⟨1, 1, 100⟩ : TeamRow).total =
        ([hcCaseA].filter (fun r => r.assigned_team = some "Team_Alpha")).length ∧
      (⟨1, 1, 100⟩ : TeamRow).breaches =
        (([hcCaseA].filter (fun r => r.assigned_team = some "Team_Alpha")).filter
          (fun r => slaStatus r = "SLA_BREACH")).length ∧
      (⟨1, 1, 100⟩ : TeamRow).breach_pct =
        roundTo 1 (100 * ((⟨1, 1, 100⟩ : TeamRow).breaches : ℚ) /
          ((⟨1, 1, 100⟩ : TeamRow).total : ℚ))) ∧
    (analyze_sla_breaches [hcCaseA]).teamSummaryRows.Pairwise
      (fun a b => b.2.breach_pct ≤ a.2.breach_pct) :=
  ⟨(C6_amended [hcCaseA] "P3" "Team_Alpha" ⟨1, 1, 100, 100⟩ ⟨1, 1, 100⟩).1 memP_caseA,
   (C6_amended [hcCaseA] "P3" "Team_Alpha" ⟨1, 1, 100, 100⟩ ⟨1, 1, 100⟩).2.1 memT_caseA,
   (C6_amended [hcCaseA] "P3" "Team_Alpha" ⟨1, 1, 100, 100⟩ ⟨1, 1, 100⟩).2.2⟩

/-- Claim C10: `sla_status` always takes exactly one of the two values,
the `SLA_BREACH` count plus the `WITHIN_SLA` count is the total case
count, and every per-group breach percentage lies between 0 and 100. -/
theorem C10_invariants :
    (∀ r : HcRow, slaStatus r = "SLA_BREACH" ∨ slaStatus r = "WITHIN_SLA") ∧
    (∀ rows : List HcRow,
      (analyze_sla_breaches rows).breaches +
        (rows.filter (fun r => slaStatus r = "WITHIN_SLA")).length =
      (analyze_sla_breaches rows).total) ∧
    (∀ (rows : List HcRow) (k : String) (pr : PrioRow),
      (k, pr) ∈ (analyze_sla_breaches rows).prioSummary →
        0 ≤ pr.breach_pct ∧ pr.breach_pct ≤ 100) ∧
    (∀ (rows : List HcRow) (k : String) (tr : TeamRow),
      (k, tr) ∈ (analyze_sla_breaches rows).teamSummaryRows →
        0 ≤ tr.breach_pct ∧ tr.breach_pct ≤ 100) := by
  refine ⟨slaStatus_dichotomy, ?_, ?_, ?_⟩
  · intro rows
    show breachCount rows + _ = rows.length
    rw [breachCount]
    have hcompl : rows.filter (fun r => slaStatus r = "WITHIN_SLA") =
        rows.filter (fun r => !decide (slaStatus r = "SLA_BREACH")) :=
      List.filter_congr (fun r _ => slaStatus_within_eq_not_breach r)
    rw [hcompl]
    exact (List.length_eq_length_filter_add _).symm
  · intro rows k pr h
    obtain ⟨hpr, hne⟩ := mem_prioSummary h
    subst hpr
    exact breachPct_bounds hne
  · intro rows k tr h
    obtain ⟨htr, hne⟩ := mem_teamSummary h
    subst htr
    exact breachPct_bounds hne

/-- Witness for C10 at the one-case dataset `[hcCaseA]`. -/
theorem C10_invariants_witness :
    (slaStatus hcCaseA = "SLA_BREACH" ∨ slaStatus hcCaseA = "WITHIN_SLA") ∧
    ((analyze_sla_breaches [hcCaseA]).breaches +
      ([hcCaseA].filter (fun r => slaStatus r = "WITHIN_SLA")).length =
      (analyze_sla_breaches [hcCaseA]).total) ∧
    (0 ≤ (⟨1, 1, 100, 100⟩ : PrioRow).breach_pct ∧
      (⟨1, 1, 100, 100⟩ : PrioRow).breach_pct ≤ 100) ∧
    (0 ≤ (⟨1, 1, 100⟩ : TeamRow).breach_pct ∧
      (⟨1, 1, 100⟩ : TeamRow).breach_pct ≤ 100) :=
  ⟨C10_invariants.1 hcCaseA,
   C10_invariants.2.1 [hcCaseA],
   C10_invariants.2.2.1 [hcCaseA] "P3" ⟨1, 1, 100, 100⟩ memP_caseA,
   C10_invariants.2.2.2 [hcCaseA] "Team_Alpha" ⟨1, 1, 100⟩ memT_caseA⟩

end DataAnalysis
